import Mathlib

set_option maxRecDepth 4096

/-!
Verification of the Rubus FFmpeg JNI video decoder
(`src/main/c/frontend/decoders/frontend_decoders_FfmpegJniVideoDecoder.c`).

The C file is a bridge between the FFmpeg codec engine (an external
collaborator) and the JVM image model (also external).  We embed it
shallowly: the codec engine is an oracle (`Engine`) recording, for the
given encoded byte buffer, the outcomes of every native call the C code
makes (format probing, per-iteration packet read / packet submission /
frame retrieval codes, and the bytes `sws_scale` writes into the scratch
buffer at each iteration).  Each exposed JNI operation becomes a Lean
function over that oracle returning its result (`Except DecErr …`, where
`Except.error e` models "throw DecodingException e and return NULL/0"),
the ordered trace of native calls and releases it performed
(`List Event`), and — for `decodeFrames` — the final state of the
persistent `Context0` structure.
-/

namespace Rubus

/-- Stream parameters read off `format_context->streams[0]` after a
successful `retrieve_video_format_context`: `codecpar->width`,
`codecpar->height`, `nb_frames` (a C `int64_t`), `codecpar->format`. -/
structure ProbeInfo where
  width : Nat
  height : Nat
  nb_frames : Int
  pix_fmt : Int
deriving Repr, DecidableEq

/-- Trace events: one per native FFmpeg/libc call the C file performs.
Allocation, per-iteration decode-engine calls (indexed by the loop
iteration `k`), and resource releases. -/
inductive Event where
  | callocContext
  | probeFormat
  | avioContextFree
  | avformatCloseInput
  | retrieveCodecCtx
  | swsGetContext
  | callocBuffer
  | avPacketAlloc
  | avFrameAlloc
  | avReadFrame (k : Nat)
  | avcodecSendPacket (k : Nat)
  | avcodecReceiveFrame (k : Nat)
  | convertFrame (k : Nat)
  | avPacketUnref
  | avFrameUnref
  | avcodecFreeContext
  | avFrameFree
  | avPacketFree
  | swsFreeContext
  | freeBuffer
  | freeStruct
deriving Repr, DecidableEq

/-- A thrown `common/DecodingException`, carrying its message string. -/
structure DecErr where
  message : String
deriving Repr, DecidableEq

/-- Oracle for the external codec engine, fixed by the encoded byte
buffer and the engine's own behavior.  `probe` is the outcome of
`retrieve_video_format_context` (error code, or the parameters of
stream 0); `codecOpen` the outcome of `retrieve_codec_context`
(error code, or the new codec-context identity); `swsCtx` the result of
`sws_getContext` (`none` models NULL).  `readCode k`, `sendCode k`,
`recvCode k` are the return codes of `av_read_frame`,
`avcodec_send_packet`, `avcodec_receive_frame` at loop iteration `k`
(0 = success); `packetAt k` / `frameAt k` the packet/frame content
delivered at iteration `k`; `scaled k i` the byte `sws_scale` writes at
index `i` of the scratch buffer at iteration `k`. -/
structure Engine where
  probe : Except Int ProbeInfo
  codecOpen : Except Int Nat
  swsCtx : Option Nat
  newFrameId : Nat
  newPacketId : Nat
  newBufferId : Nat
  readCode : Nat → Int
  sendCode : Nat → Int
  recvCode : Nat → Int
  packetAt : Nat → Nat
  frameAt : Nat → Nat
  scaled : Nat → Nat → Nat

/-- The C `struct context0`.  Pointer fields (`frame`, `packet`,
`buffer`, `codec_context`, `sws_context`) are modelled by their
identities; `frameData`/`packetData` model the content currently held by
the AVFrame/AVPacket scratch entities (`none` after an unref);
`bufferSize` is the allocation size of `buffer`
(`video_width * video_height * 3` from `calloc`), `bufferContent` its
byte content; `frame_rate` is the C `uint64_t` field. -/
structure Context0 where
  frame : Nat
  frameData : Option Nat
  packet : Nat
  packetData : Option Nat
  buffer : Nat
  bufferSize : Nat
  bufferContent : Nat → Nat
  codec_context : Nat
  sws_context : Nat
  frame_rate : Nat

/-- A `java.awt.Image` as built by `create_java_frame`: its dimensions
and the packed `int[]` pixel array. -/
structure Image where
  width : Nat
  height : Nat
  pixels : List Nat
deriving Repr, DecidableEq

/-- The per-pixel packing expression of `convert_to_java_frame`:
`(uint32_t)buf[i] << 16 & 0xff0000 | (uint32_t)buf[i+1] << 8 & 0xff00 |
(uint32_t)buf[i+2] & 0xff`. -/
def packPixel (r g b : Nat) : Nat :=
  (((r <<< 16) &&& 0xff0000) ||| ((g <<< 8) &&& 0xff00)) ||| (b &&& 0xff)

/-- `convert_to_java_frame`: scale into the scratch buffer (its content
is the `buf` argument here) and pack `width*height` pixels, 3 scratch
bytes per pixel. -/
def convert_to_java_frame (buf : Nat → Nat) (width height : Nat) : Image :=
  { width := width
    height := height
    pixels := (List.range (width * height)).map fun j =>
      packPixel (buf (3 * j)) (buf (3 * j + 1)) (buf (3 * j + 2)) }

/-- Message of `"Demuxing failed, error code: %d"`. -/
def demuxFailMsg (c : Int) : String :=
  "Demuxing failed, error code: " ++ toString c

/-- Message of `"AVPacket initialization failed, error code: %d"`. -/
def packetFailMsg (c : Int) : String :=
  "AVPacket initialization failed, error code: " ++ toString c

/-- Message of `"Decoding failed, error code %d"` (note: no colon in the
C format string, unlike all the other step-failure messages). -/
def decodeFailMsg (c : Int) : String :=
  "Decoding failed, error code " ++ toString c

/-- Message of `"Context initialization failed, error code: %d"`. -/
def ctxInitFailMsg (c : Int) : String :=
  "Context initialization failed, error code: " ++ toString c

/-- Message of `"SWS context initialization failed, error code: %d"`. -/
def swsFailMsg (c : Int) : String :=
  "SWS context initialization failed, error code: " ++ toString c

/-- Message `"Unknown frame rate"`. -/
def unknownFrameRateMsg : String := "Unknown frame rate"

/-- Message of `"Context %d is not supported"`. -/
def unsupportedMsg (t : Int) : String :=
  "Context " ++ toString t ++ " is not supported"

/-- The `while (total > 0)` loop of `decodeFrames`, with `k` the current
iteration index, `n` the remaining iteration count (`total` counted down
in ℕ), `acc` the reversed accumulated `java_frames`, `evs` the trace so
far.  Mirrors the C control flow: read a packet, send it, receive a
frame, convert, unref frame and packet; on any nonzero code free the
demux handle (I/O wrapper then format context) and throw. -/
def decodeLoop (eng : Engine) (w h : Nat) :
    Nat → Nat → Context0 → List Image → List Event →
    Except DecErr (List Image) × List Event × Context0
  | _, 0, ctx, acc, evs =>
      (Except.ok acc.reverse,
       evs ++ [Event.avioContextFree, Event.avformatCloseInput], ctx)
  | k, n + 1, ctx, acc, evs =>
      if eng.readCode k ≠ 0 then
        (Except.error ⟨packetFailMsg (eng.readCode k)⟩,
         evs ++ [Event.avReadFrame k, Event.avioContextFree,
                 Event.avformatCloseInput], ctx)
      else
        let ctx1 := { ctx with packetData := some (eng.packetAt k) }
        if eng.sendCode k ≠ 0 then
          (Except.error ⟨decodeFailMsg (eng.sendCode k)⟩,
           evs ++ [Event.avReadFrame k, Event.avcodecSendPacket k,
                   Event.avioContextFree, Event.avformatCloseInput], ctx1)
        else
          if eng.recvCode k ≠ 0 then
            (Except.error ⟨decodeFailMsg (eng.recvCode k)⟩,
             evs ++ [Event.avReadFrame k, Event.avcodecSendPacket k,
                     Event.avcodecReceiveFrame k, Event.avPacketUnref,
                     Event.avioContextFree, Event.avformatCloseInput],
             { ctx1 with packetData := none })
          else
            let ctx2 :=
              { ctx1 with
                frameData := some (eng.frameAt k)
                bufferContent := fun i =>
                  if i < w * h * 3 then eng.scaled k i
                  else ctx1.bufferContent i }
            let img := convert_to_java_frame ctx2.bufferContent w h
            decodeLoop eng w h (k + 1) n
              { ctx2 with frameData := none, packetData := none }
              (img :: acc)
              (evs ++ [Event.avReadFrame k, Event.avcodecSendPacket k,
                       Event.avcodecReceiveFrame k, Event.convertFrame k,
                       Event.avFrameUnref, Event.avPacketUnref])

/-- `Java_frontend_decoders_FfmpegJniVideoDecoder_decodeFrames`.
For context type 0 it re-probes the container from the byte buffer
(freeing the I/O wrapper and format handle and throwing on probe
failure) and runs the decode loop; the `offset` parameter is accepted
but never read by the C body.  For any other context type it throws the
unsupported-context message having touched nothing. -/
def decodeFrames (eng : Engine) (ctx : Context0) (context_type : Int)
    (offset total : Int) :
    Except DecErr (List Image) × List Event × Context0 :=
  if context_type = 0 then
    match eng.probe with
    | Except.error c =>
        (Except.error ⟨demuxFailMsg c⟩,
         [Event.probeFormat, Event.avioContextFree,
          Event.avformatCloseInput], ctx)
    | Except.ok info =>
        decodeLoop eng info.width info.height 0 total.toNat ctx []
          [Event.probeFormat]
  else
    (Except.error ⟨unsupportedMsg context_type⟩, [], ctx)

/-- `Java_frontend_decoders_FfmpegJniVideoDecoder_frames`.  For type 0,
returns `context->frame_rate` if positive — the C return narrows the
`uint64_t` field to the declared `jint` return type, i.e. truncates the
value modulo 2^32 — and otherwise throws `"Unknown frame rate"`. -/
def frames (ctx : Context0) (context_type : Int) :
    Except DecErr Nat × List Event :=
  if context_type = 0 then
    if ctx.frame_rate > 0 then
      (Except.ok (ctx.frame_rate % 4294967296), [])
    else
      (Except.error ⟨unknownFrameRateMsg⟩, [])
  else
    (Except.error ⟨unsupportedMsg context_type⟩, [])

/-- `Java_frontend_decoders_FfmpegJniVideoDecoder_initContext`.  For
type 0: `calloc` the context struct, probe the format (on probe failure
the C code throws and returns NULL *without* freeing the I/O wrapper or
the format handle), read `nb_frames` into the `uint64_t` `frame_rate`
field (an `int64_t → uint64_t` conversion, i.e. reduction mod 2^64),
build the codec context, unconditionally free the I/O wrapper and format
handle, then build the scaler; on scaler failure (`sws_getContext`
returning NULL) the thrown message formats the stale `error_code`
variable, which is 0 there since `retrieve_codec_context` succeeded.
On success allocate the scratch buffer (`calloc`, so zeroed, of size
`width*height*3`), packet and frame, and return the context
(`Except.ok` models the non-null handle). -/
def initContext (eng : Engine) (context_type : Int) :
    Except DecErr Context0 × List Event :=
  if context_type = 0 then
    match eng.probe with
    | Except.error c =>
        (Except.error ⟨demuxFailMsg c⟩,
         [Event.callocContext, Event.probeFormat])
    | Except.ok info =>
        match eng.codecOpen with
        | Except.error c =>
            (Except.error ⟨ctxInitFailMsg c⟩,
             [Event.callocContext, Event.probeFormat,
              Event.retrieveCodecCtx, Event.avioContextFree,
              Event.avformatCloseInput])
        | Except.ok cc =>
            match eng.swsCtx with
            | none =>
                (Except.error ⟨swsFailMsg 0⟩,
                 [Event.callocContext, Event.probeFormat,
                  Event.retrieveCodecCtx, Event.avioContextFree,
                  Event.avformatCloseInput, Event.swsGetContext])
            | some sc =>
                (Except.ok
                  { frame := eng.newFrameId
                    frameData := none
                    packet := eng.newPacketId
                    packetData := none
                    buffer := eng.newBufferId
                    bufferSize := info.width * info.height * 3
                    bufferContent := fun _ => 0
                    codec_context := cc
                    sws_context := sc
                    frame_rate := (info.nb_frames % 18446744073709551616).toNat },
                 [Event.callocContext, Event.probeFormat,
                  Event.retrieveCodecCtx, Event.avioContextFree,
                  Event.avformatCloseInput, Event.swsGetContext,
                  Event.callocBuffer, Event.avPacketAlloc,
                  Event.avFrameAlloc])
  else
    (Except.error ⟨unsupportedMsg context_type⟩, [])

/-- `Java_frontend_decoders_FfmpegJniVideoDecoder_freeContext`: for
type 0, release the codec context, frame, packet, scaler, buffer, and
the struct itself; for any other type, do nothing. -/
def freeContext (ctx : Context0) (context_type : Int) : List Event :=
  if context_type = 0 then
    [Event.avcodecFreeContext, Event.avFrameFree, Event.avPacketFree,
     Event.swsFreeContext, Event.freeBuffer, Event.freeStruct]
  else []

/-! Derived notions used by the statements. -/

/-- Iteration `k` of the decode loop succeeds: `av_read_frame`,
`avcodec_send_packet` and `avcodec_receive_frame` all return 0. -/
def okIter (eng : Engine) (k : Nat) : Prop :=
  eng.readCode k = 0 ∧ eng.sendCode k = 0 ∧ eng.recvCode k = 0

instance (eng : Engine) (k : Nat) : Decidable (okIter eng k) := by
  unfold okIter; infer_instance

/-- The error thrown by iteration `k` of the decode loop, if any:
the first of the three native calls returning a nonzero code determines
the exception message. -/
def iterError (eng : Engine) (k : Nat) : Option DecErr :=
  if eng.readCode k ≠ 0 then some ⟨packetFailMsg (eng.readCode k)⟩
  else if eng.sendCode k ≠ 0 then some ⟨decodeFailMsg (eng.sendCode k)⟩
  else if eng.recvCode k ≠ 0 then some ⟨decodeFailMsg (eng.recvCode k)⟩
  else none

/-- The image produced by a successful iteration `k`: the scratch bytes
written by `sws_scale` at iteration `k`, packed by
`convert_to_java_frame`, at the probed dimensions. -/
def expectedImage (eng : Engine) (w h k : Nat) : Image :=
  convert_to_java_frame (eng.scaled k) w h

/-- Trace of one successful decode-loop iteration. -/
def iterEvents (k : Nat) : List Event :=
  [Event.avReadFrame k, Event.avcodecSendPacket k,
   Event.avcodecReceiveFrame k, Event.convertFrame k,
   Event.avFrameUnref, Event.avPacketUnref]

/-- Trace of `n` successful decode-loop iterations starting at `k`. -/
def okEvents : Nat → Nat → List Event
  | _, 0 => []
  | k, n + 1 => iterEvents k ++ okEvents (k + 1) n

/-- Images of `n` successful decode-loop iterations starting at `k`. -/
def okImages (eng : Engine) (w h : Nat) : Nat → Nat → List Image
  | _, 0 => []
  | k, n + 1 => expectedImage eng w h k :: okImages eng w h (k + 1) n

/-- The fields of `struct context0` that the decode loop never
reassigns: all five pointers, the scratch-buffer allocation size, and
`frame_rate`. -/
def samePersistent (a b : Context0) : Prop :=
  a.frame = b.frame ∧ a.packet = b.packet ∧ a.buffer = b.buffer ∧
  a.bufferSize = b.bufferSize ∧ a.codec_context = b.codec_context ∧
  a.sws_context = b.sws_context ∧ a.frame_rate = b.frame_rate

/-- The step-failure message shape claimed by the spec:
`"<Step> failed, error code: <n>"`. -/
def stepFailureForm (msg : String) : Prop :=
  ∃ step : String, ∃ c : Int,
    msg = step ++ (" failed, error code: " ++ toString c)

/-- The fixed logical-error messages claimed by the spec. -/
def fixedForm (msg : String) : Prop :=
  msg = unknownFrameRateMsg ∨ ∃ t : Int, msg = unsupportedMsg t

/-- The message shape the spec claims every raised error has. -/
def claimedForm (msg : String) : Prop :=
  stepFailureForm msg ∨ fixedForm msg

/-- The actual shape of the decode submission/retrieval failure
messages: `"Decoding failed, error code <n>"`, with no colon before the
code. -/
def decodeNoColonForm (msg : String) : Prop :=
  ∃ c : Int, msg = decodeFailMsg c

/-- Amended message taxonomy: the claimed forms, plus the colon-less
decode-failure form actually present in the C format strings. -/
def amendedForm (msg : String) : Prop :=
  claimedForm msg ∨ decodeNoColonForm msg

/-! Concrete inputs used by witnesses and counterexamples. -/

/-- A context with the given frame-rate field and arbitrary fixed
identities. -/
def mkCtx (fr : Nat) : Context0 :=
  { frame := 1, frameData := none, packet := 2, packetData := none,
    buffer := 3, bufferSize := 18, bufferContent := fun _ => 0,
    codec_context := 4, sws_context := 5, frame_rate := fr }

/-- An engine on which every native call succeeds, probing a 2×1
stream with 10 declared frames. -/
def engAllOk : Engine :=
  { probe := Except.ok ⟨2, 1, 10, 0⟩
    codecOpen := Except.ok 7
    swsCtx := some 8
    newFrameId := 11, newPacketId := 12, newBufferId := 13
    readCode := fun _ => 0
    sendCode := fun _ => 0
    recvCode := fun _ => 0
    packetAt := fun k => k
    frameAt := fun k => k
    scaled := fun k i => (k + i) % 256 }

/-- An engine whose format probe fails with code −2. -/
def engProbeFail : Engine :=
  { engAllOk with probe := Except.error (-2) }

/-- An engine whose `av_read_frame` fails immediately (end of stream,
FFmpeg's AVERROR_EOF). -/
def engReadFail : Engine :=
  { engAllOk with readCode := fun _ => -541478725 }

/-- An engine whose `avcodec_send_packet` fails with code −22. -/
def engSendFail : Engine :=
  { engAllOk with sendCode := fun _ => -22 }

/-- An engine whose `retrieve_codec_context` fails with code −3. -/
def engCodecFail : Engine :=
  { engAllOk with codecOpen := Except.error (-3) }

/-- The 1×1 scratch buffer `[0x12, 0x34, 0x56]` of the pixel-packing
claim. -/
def bufRGB : Nat → Nat :=
  fun i => if i = 0 then 0x12 else if i = 1 then 0x34 else
    if i = 2 then 0x56 else 0

/-! Structural lemmas about the decode loop. -/

theorem convert_eq_of_agree (buf1 buf2 : Nat → Nat) (w h : Nat)
    (hagree : ∀ i, i < w * h * 3 → buf1 i = buf2 i) :
    convert_to_java_frame buf1 w h = convert_to_java_frame buf2 w h := by
  unfold convert_to_java_frame
  simp only [Image.mk.injEq, true_and]
  apply List.map_congr_left
  intro j hj
  have hj' : j < w * h := List.mem_range.mp hj
  rw [hagree (3 * j) (by omega), hagree (3 * j + 1) (by omega),
      hagree (3 * j + 2) (by omega)]

theorem samePersistent_trans {a b c : Context0}
    (h1 : samePersistent a b) (h2 : samePersistent b c) :
    samePersistent a c := by
  obtain ⟨x1, x2, x3, x4, x5, x6, x7⟩ := h1
  obtain ⟨y1, y2, y3, y4, y5, y6, y7⟩ := h2
  exact ⟨x1.trans y1, x2.trans y2, x3.trans y3, x4.trans y4,
         x5.trans y5, x6.trans y6, x7.trans y7⟩

theorem decodeLoop_pres (eng : Engine) (w h : Nat) :
    ∀ n k ctx acc evs,
      samePersistent (decodeLoop eng w h k n ctx acc evs).2.2 ctx := by
  intro n
  induction n with
  | zero => intro k ctx acc evs; simp [decodeLoop, samePersistent]
  | succ n ih =>
      intro k ctx acc evs
      simp only [decodeLoop]
      split_ifs with h1 h2 h3
      · simp [samePersistent]
      · simp [samePersistent]
      · simp [samePersistent]
      · exact samePersistent_trans (ih (k + 1) _ _ _)
          (by simp [samePersistent])

theorem decodeLoop_ok (eng : Engine) (w h : Nat) :
    ∀ n k ctx acc evs, (∀ j, j < n → okIter eng (k + j)) →
      (decodeLoop eng w h k n ctx acc evs).1 =
        Except.ok (acc.reverse ++ okImages eng w h k n) ∧
      (decodeLoop eng w h k n ctx acc evs).2.1 =
        evs ++ okEvents k n ++
          [Event.avioContextFree, Event.avformatCloseInput] := by
  intro n
  induction n with
  | zero =>
      intro k ctx acc evs _
      simp [decodeLoop, okImages, okEvents]
  | succ n ih =>
      intro k ctx acc evs hok
      have h0 : okIter eng k := by simpa using hok 0 (Nat.succ_pos n)
      obtain ⟨hr, hs, hv⟩ := h0
      have harg : ∀ j, j < n → okIter eng (k + 1 + j) := by
        intro j hj
        have e : k + 1 + j = k + (j + 1) := by omega
        rw [e]; exact hok (j + 1) (by omega)
      have himg :
          convert_to_java_frame
            (fun i => if i < w * h * 3 then eng.scaled k i
                      else ctx.bufferContent i) w h
            = expectedImage eng w h k := by
        apply convert_eq_of_agree
        intro i hi
        simp [hi]
      simp only [decodeLoop, hr, hs, hv, ne_eq, not_true_eq_false,
        if_false, ite_false]
      constructor
      · rw [(ih (k + 1) _ _ _ harg).1, himg]
        simp [okImages, List.append_assoc]
      · rw [(ih (k + 1) _ _ _ harg).2]
        simp [okEvents, iterEvents, List.append_assoc]

theorem okImages_eq_map (eng : Engine) (w h : Nat) :
    ∀ n k, okImages eng w h k n =
      (List.range n).map fun j => expectedImage eng w h (k + j) := by
  intro n
  induction n with
  | zero => intro k; simp [okImages]
  | succ n ih =>
      intro k
      rw [List.range_succ_eq_map]
      simp only [okImages, ih (k + 1), List.map_cons, List.map_map,
        Nat.add_zero, List.cons.injEq]
      refine ⟨trivial, ?_⟩
      apply List.map_congr_left
      intro j _
      simp only [Function.comp_apply]
      congr 1
      omega

theorem iterError_eq_none (eng : Engine) (k : Nat) :
    iterError eng k = none ↔ okIter eng k := by
  unfold iterError okIter
  split_ifs with h1 h2 h3 <;> simp_all

theorem decodeLoop_fail (eng : Engine) (w h : Nat) :
    ∀ d n k ctx acc evs err, d < n →
      (∀ j, j < d → iterError eng (k + j) = none) →
      iterError eng (k + d) = some err →
      (decodeLoop eng w h k n ctx acc evs).1 = Except.error err ∧
      List.IsSuffix [Event.avioContextFree, Event.avformatCloseInput]
        (decodeLoop eng w h k n ctx acc evs).2.1 := by
  intro d
  induction d with
  | zero =>
      intro n k ctx acc evs err hn _ hfail
      obtain ⟨m, rfl⟩ : ∃ m, n = m + 1 :=
        ⟨n - 1, by omega⟩
      rw [Nat.add_zero] at hfail
      unfold iterError at hfail
      simp only [decodeLoop]
      split_ifs at hfail ⊢ with h1 h2 h3
      · obtain rfl : (⟨packetFailMsg (eng.readCode k)⟩ : DecErr) = err :=
          Option.some.inj hfail
        exact ⟨rfl, ⟨evs ++ [Event.avReadFrame k], by simp⟩⟩
      · obtain rfl : (⟨decodeFailMsg (eng.sendCode k)⟩ : DecErr) = err :=
          Option.some.inj hfail
        exact ⟨rfl,
          ⟨evs ++ [Event.avReadFrame k, Event.avcodecSendPacket k],
           by simp⟩⟩
      · obtain rfl : (⟨decodeFailMsg (eng.recvCode k)⟩ : DecErr) = err :=
          Option.some.inj hfail
        exact ⟨rfl,
          ⟨evs ++ [Event.avReadFrame k, Event.avcodecSendPacket k,
                   Event.avcodecReceiveFrame k, Event.avPacketUnref],
           by simp⟩⟩
  | succ d ih =>
      intro n k ctx acc evs err hn hprev hfail
      obtain ⟨m, rfl⟩ : ∃ m, n = m + 1 := ⟨n - 1, by omega⟩
      have h0 : okIter eng k := by
        have := hprev 0 (Nat.succ_pos d)
        rw [Nat.add_zero] at this
        exact (iterError_eq_none eng k).mp this
      obtain ⟨hr, hs, hv⟩ := h0
      simp only [decodeLoop, hr, hs, hv, ne_eq, not_true_eq_false,
        if_false, ite_false]
      apply ih m (k + 1)
      · omega
      · intro j hj
        have e : k + 1 + j = k + (j + 1) := by omega
        rw [e]; exact hprev (j + 1) (by omega)
      · have e : k + 1 + d = k + (d + 1) := by omega
        rw [e]; exact hfail

theorem decodeLoop_error_form (eng : Engine) (w h : Nat) :
    ∀ n k ctx acc evs err,
      (decodeLoop eng w h k n ctx acc evs).1 = Except.error err →
      amendedForm err.message := by
  intro n
  induction n with
  | zero =>
      intro k ctx acc evs err h
      simp [decodeLoop] at h
  | succ n ih =>
      intro k ctx acc evs err h
      simp only [decodeLoop] at h
      split_ifs at h with h1 h2 h3
      · obtain rfl : (⟨packetFailMsg (eng.readCode k)⟩ : DecErr) = err :=
          Except.error.inj h
        exact Or.inl (Or.inl
          ⟨"AVPacket initialization", eng.readCode k, by
            rw [packetFailMsg, ← String.append_assoc]
            rfl⟩)
      · obtain rfl : (⟨decodeFailMsg (eng.sendCode k)⟩ : DecErr) = err :=
          Except.error.inj h
        exact Or.inr ⟨eng.sendCode k, rfl⟩
      · obtain rfl : (⟨decodeFailMsg (eng.recvCode k)⟩ : DecErr) = err :=
          Except.error.inj h
        exact Or.inr ⟨eng.recvCode k, rfl⟩
      · exact ih (k + 1) _ _ _ err h

/-! Bit-level facts about the pixel packing. -/

theorem mask_hi_byte : ∀ r : Fin 256,
    ((r.val <<< 16) &&& 0xff0000) = r.val <<< 16 := by decide

theorem mask_mid_byte : ∀ g : Fin 256,
    ((g.val <<< 8) &&& 0xff00) = g.val <<< 8 := by decide

theorem mask_lo_byte : ∀ b : Fin 256, (b.val &&& 0xff) = b.val := by decide

theorem packPixel_eq_of_bytes (r g b : Nat)
    (hr : r < 256) (hg : g < 256) (hb : b < 256) :
    packPixel r g b = ((r <<< 16) ||| (g <<< 8)) ||| b := by
  unfold packPixel
  rw [show ((r <<< 16) &&& 0xff0000) = r <<< 16 from mask_hi_byte ⟨r, hr⟩,
      show ((g <<< 8) &&& 0xff00) = g <<< 8 from mask_mid_byte ⟨g, hg⟩,
      show (b &&& 0xff) = b from mask_lo_byte ⟨b, hb⟩]

theorem packPixel_lt (r g b : Nat) : packPixel r g b < 16777216 := by
  unfold packPixel
  have h1 : ((r <<< 16) &&& 0xff0000) < 2 ^ 24 :=
    Nat.lt_of_le_of_lt Nat.and_le_right (by norm_num)
  have h2 : ((g <<< 8) &&& 0xff00) < 2 ^ 24 :=
    Nat.lt_of_le_of_lt Nat.and_le_right (by norm_num)
  have h3 : (b &&& 0xff) < 2 ^ 24 :=
    Nat.lt_of_le_of_lt Nat.and_le_right (by norm_num)
  have h4 := Nat.or_lt_two_pow (Nat.or_lt_two_pow h1 h2) h3
  have e : (2 : Nat) ^ 24 = 16777216 := by norm_num
  rw [e] at h4
  exact h4

/-! Claim theorems. -/

/-- C2: for every width, height, and scaled RGB scratch buffer
(3 bytes per pixel, values below 256 as they are `uint8_t`), the
conversion produces `width*height` packed pixels where pixel `j` equals
`(byte[3j] <<< 16) ||| (byte[3j+1] <<< 8) ||| byte[3j+2]`, and every
pixel is below 2^24 (all bits above bit 23 — the alpha bits — zero). -/
theorem convert_to_java_frame_spec (w h : Nat) (buf : Nat → Nat)
    (hbyte : ∀ i, buf i < 256) :
    (convert_to_java_frame buf w h).width = w ∧
    (convert_to_java_frame buf w h).height = h ∧
    (convert_to_java_frame buf w h).pixels =
      (List.range (w * h)).map (fun j =>
        ((buf (3 * j) <<< 16) ||| (buf (3 * j + 1) <<< 8)) |||
          buf (3 * j + 2)) ∧
    (∀ p ∈ (convert_to_java_frame buf w h).pixels, p < 16777216) := by
  refine ⟨rfl, rfl, ?_, ?_⟩
  · unfold convert_to_java_frame
    apply List.map_congr_left
    intro j _
    exact packPixel_eq_of_bytes _ _ _ (hbyte _) (hbyte _) (hbyte _)
  · intro p hp
    unfold convert_to_java_frame at hp
    obtain ⟨j, _, rfl⟩ := List.mem_map.mp hp
    exact packPixel_lt _ _ _

/-- Witness for C2: on the 1×1 buffer `[0x12, 0x34, 0x56]` the byte
bound holds and the packed pixel array is `[0x123456]`. -/
theorem convert_to_java_frame_spec_witness :
    (∀ i, bufRGB i < 256) ∧
    (convert_to_java_frame bufRGB 1 1).pixels = [0x123456] := by
  have hbyte : ∀ i, bufRGB i < 256 := by
    intro i; unfold bufRGB; split_ifs <;> norm_num
  refine ⟨hbyte, ?_⟩
  rw [(convert_to_java_frame_spec 1 1 bufRGB hbyte).2.2.1]
  rfl

/-- C9: the returned value (image sequence or error), the event trace
and the final context of `decodeFrames` are identical for any two
values of the `offset` parameter: the C body never reads `offset`. -/
theorem decodeFrames_ignores_offset (eng : Engine) (ctx : Context0)
    (t off1 off2 total : Int) :
    decodeFrames eng ctx t off1 total =
      decodeFrames eng ctx t off2 total := rfl

/-- C6: for every context-type tag other than 0, `initContext`,
`decodeFrames` and `frames` throw `"Context <n> is not supported"` with
an empty native-call trace (no resource allocated or touched), and
`freeContext` performs no release at all. -/
theorem unsupported_context (t : Int) (eng : Engine) (ctx : Context0)
    (off total : Int) (h : t ≠ 0) :
    initContext eng t = (Except.error ⟨unsupportedMsg t⟩, []) ∧
    decodeFrames eng ctx t off total =
      (Except.error ⟨unsupportedMsg t⟩, [], ctx) ∧
    frames ctx t = (Except.error ⟨unsupportedMsg t⟩, []) ∧
    freeContext ctx t = [] := by
  unfold initContext decodeFrames frames freeContext
  rw [if_neg h, if_neg h, if_neg h, if_neg h]
  exact ⟨rfl, rfl, rfl, rfl⟩

/-- Witness for C6 at context type 1. -/
theorem unsupported_context_witness :
    (1 : Int) ≠ 0 ∧
    (initContext engAllOk 1 = (Except.error ⟨unsupportedMsg 1⟩, []) ∧
     decodeFrames engAllOk (mkCtx 10) 1 2 3 =
       (Except.error ⟨unsupportedMsg 1⟩, [], mkCtx 10) ∧
     frames (mkCtx 10) 1 = (Except.error ⟨unsupportedMsg 1⟩, []) ∧
     freeContext (mkCtx 10) 1 = []) :=
  ⟨by decide, unsupported_context 1 engAllOk (mkCtx 10) 2 3 (by decide)⟩

/-- C10 (implicit): the context stores `frame_rate` as `uint64_t` while
`frames` returns a `jint`; when the stored hint is at least 2^32 the
value returned is the hint reduced modulo 2^32 = 4294967296 — not the
stored hint itself. -/
theorem frames_narrows_to_32_bits (ctx : Context0)
    (hbig : 4294967296 ≤ ctx.frame_rate) :
    (frames ctx 0).1 = Except.ok (ctx.frame_rate % 4294967296) ∧
    ctx.frame_rate % 4294967296 ≠ ctx.frame_rate := by
  have hpos : 0 < ctx.frame_rate := by omega
  constructor
  · unfold frames
    rw [if_pos rfl, if_pos hpos]
  · have hlt : ctx.frame_rate % 4294967296 < 4294967296 :=
      Nat.mod_lt _ (by norm_num)
    omega

/-- Witness for C10: a stored hint of 2^32 + 5 makes `frames` return
5. -/
theorem frames_narrows_to_32_bits_witness :
    4294967296 ≤ (mkCtx 4294967301).frame_rate ∧
    ((frames (mkCtx 4294967301) 0).1 =
       Except.ok ((mkCtx 4294967301).frame_rate % 4294967296) ∧
     (mkCtx 4294967301).frame_rate % 4294967296 ≠
       (mkCtx 4294967301).frame_rate) :=
  ⟨by norm_num [mkCtx],
   frames_narrows_to_32_bits (mkCtx 4294967301) (by norm_num [mkCtx])⟩

/-- Counterexample to C5 as stated: with a stored hint of 2^32 (strictly
positive), `frames` does not return the hint: it returns 0. -/
theorem frames_not_exact_counterexample :
    0 < (mkCtx 4294967296).frame_rate ∧
    (frames (mkCtx 4294967296) 0).1 = Except.ok 0 ∧
    (0 : Nat) ≠ (mkCtx 4294967296).frame_rate := by
  refine ⟨by norm_num [mkCtx], rfl, by norm_num [mkCtx]⟩

/-- C5 (amended): for a type-0 context, `frames` returns the stored
hint reduced modulo 2^32 when the hint is positive — hence the hint
itself whenever it is below 2^32 — and throws `"Unknown frame rate"`
when it is 0; the stored hint is the stream's declared frame count
(`nb_frames`) read at construction, converted to `uint64_t`
(reduced modulo 2^64). -/
theorem frames_spec :
    (∀ ctx : Context0, 0 < ctx.frame_rate →
      frames ctx 0 = (Except.ok (ctx.frame_rate % 4294967296), [])) ∧
    (∀ ctx : Context0, 0 < ctx.frame_rate → ctx.frame_rate < 4294967296 →
      (frames ctx 0).1 = Except.ok ctx.frame_rate) ∧
    (∀ ctx : Context0, ctx.frame_rate = 0 →
      frames ctx 0 = (Except.error ⟨unknownFrameRateMsg⟩, [])) ∧
    (∀ (eng : Engine) (info : ProbeInfo) (ctx : Context0),
      eng.probe = Except.ok info →
      (initContext eng 0).1 = Except.ok ctx →
      ctx.frame_rate = (info.nb_frames % 18446744073709551616).toNat) := by
  refine ⟨?_, ?_, ?_, ?_⟩
  · intro ctx hpos
    unfold frames
    rw [if_pos rfl, if_pos hpos]
  · intro ctx hpos hlt
    unfold frames
    rw [if_pos rfl, if_pos hpos, Nat.mod_eq_of_lt hlt]
  · intro ctx h0
    unfold frames
    rw [if_pos rfl, if_neg (by omega)]
  · intro eng info ctx hp h
    unfold initContext at h
    rw [if_pos rfl, hp] at h
    cases hc : eng.codecOpen with
    | error c => rw [hc] at h; exact absurd h (by simp)
    | ok cc =>
        rw [hc] at h
        cases hs : eng.swsCtx with
        | none => rw [hs] at h; exact absurd h (by simp)
        | some sc =>
            rw [hs] at h
            obtain rfl := Except.ok.inj h
            rfl

/-- Witness for C5 (amended): a context with hint 10 returns exactly
10, and a context built by `initContext` on `engAllOk` stores the
declared frame count 10. -/
theorem frames_spec_witness :
    (0 < (mkCtx 10).frame_rate ∧ (mkCtx 10).frame_rate < 4294967296 ∧
     (frames (mkCtx 10) 0).1 = Except.ok (mkCtx 10).frame_rate) := by
  exact ⟨by norm_num [mkCtx], by norm_num [mkCtx],
    frames_spec.2.1 (mkCtx 10) (by norm_num [mkCtx]) (by norm_num [mkCtx])⟩

/-- C1: on a valid single-stream input (the probe yields `info`) with
`0 ≤ total` and the first `total` decode iterations all succeeding
(`total` does not exceed the available frames), `decodeFrames` with
context type 0 returns exactly `total` images — the `k`-th being the
conversion of the `k`-th decoded frame, so in decode (bitstream)
order — each of the probed width × height; and the native-call trace is
the probe followed by the per-iteration decode calls and the final
demux release, so for `total = 0` it is the probe and release alone:
no decode-engine call is made. -/
theorem decodeFrames_success (eng : Engine) (ctx : Context0)
    (off total : Int) (info : ProbeInfo)
    (hprobe : eng.probe = Except.ok info)
    (htotal : 0 ≤ total)
    (hok : ∀ k, k < total.toNat → okIter eng k) :
    (decodeFrames eng ctx 0 off total).1 =
      Except.ok ((List.range total.toNat).map fun k =>
        expectedImage eng info.width info.height k) ∧
    ((List.range total.toNat).map fun k =>
        expectedImage eng info.width info.height k).length = total.toNat ∧
    (∀ img ∈ (List.range total.toNat).map fun k =>
        expectedImage eng info.width info.height k,
      img.width = info.width ∧ img.height = info.height) ∧
    (decodeFrames eng ctx 0 off total).2.1 =
      Event.probeFormat :: (okEvents 0 total.toNat ++
        [Event.avioContextFree, Event.avformatCloseInput]) ∧
    (total = 0 → (decodeFrames eng ctx 0 off total).2.1 =
      [Event.probeFormat, Event.avioContextFree,
       Event.avformatCloseInput]) := by
  have hred : decodeFrames eng ctx 0 off total =
      decodeLoop eng info.width info.height 0 total.toNat ctx []
        [Event.probeFormat] := by
    unfold decodeFrames
    rw [if_pos rfl, hprobe]
  have hok' : ∀ j, j < total.toNat → okIter eng (0 + j) := by
    intro j hj; rw [Nat.zero_add]; exact hok j hj
  have hloop := decodeLoop_ok eng info.width info.height total.toNat 0
    ctx [] [Event.probeFormat] hok'
  refine ⟨?_, by simp, ?_, ?_, ?_⟩
  · rw [hred, hloop.1, okImages_eq_map]
    simp
  · intro img himg
    obtain ⟨k, _, rfl⟩ := List.mem_map.mp himg
    exact ⟨rfl, rfl⟩
  · rw [hred, hloop.2]
    simp
  · intro h0
    rw [hred, hloop.2, h0]
    simp [okEvents]

/-- Witness for C1: on the all-successful engine `engAllOk`
(a 2×1 stream), requesting 2 frames returns the two expected images. -/
theorem decodeFrames_success_witness :
    engAllOk.probe = Except.ok ⟨2, 1, 10, 0⟩ ∧ (0 : Int) ≤ 2 ∧
    (∀ k, k < (2 : Int).toNat → okIter engAllOk k) ∧
    (decodeFrames engAllOk (mkCtx 10) 0 5 2).1 =
      Except.ok ((List.range (2 : Int).toNat).map fun k =>
        expectedImage engAllOk 2 1 k) :=
  ⟨rfl, by norm_num, by decide,
   (decodeFrames_success engAllOk (mkCtx 10) 5 2 ⟨2, 1, 10, 0⟩ rfl
     (by norm_num) (by decide)).1⟩

/-- C3: if the first failing step of the decode loop occurs at an
iteration that is actually executed (`k < total`), the whole call
returns an error — never a partial image sequence — whose message
carries the nonzero native code of the step that failed, and the trace
ends with the release of the call-scoped demux handle (the I/O wrapper
then the format handle). -/
theorem decodeFrames_abort (eng : Engine) (ctx : Context0)
    (off total : Int) (info : ProbeInfo) (k : Nat) (err : DecErr)
    (hprobe : eng.probe = Except.ok info)
    (hk : k < total.toNat)
    (hprev : ∀ j, j < k → iterError eng j = none)
    (hfail : iterError eng k = some err) :
    (decodeFrames eng ctx 0 off total).1 = Except.error err ∧
    List.IsSuffix [Event.avioContextFree, Event.avformatCloseInput]
      (decodeFrames eng ctx 0 off total).2.1 ∧
    (∃ c : Int, c ≠ 0 ∧
      (err.message = packetFailMsg c ∨ err.message = decodeFailMsg c)) := by
  have hred : decodeFrames eng ctx 0 off total =
      decodeLoop eng info.width info.height 0 total.toNat ctx []
        [Event.probeFormat] := by
    unfold decodeFrames
    rw [if_pos rfl, hprobe]
  have hprev' : ∀ j, j < k → iterError eng (0 + j) = none := by
    intro j hj; rw [Nat.zero_add]; exact hprev j hj
  have hfail' : iterError eng (0 + k) = some err := by
    rw [Nat.zero_add]; exact hfail
  have hloop := decodeLoop_fail eng info.width info.height k total.toNat 0
    ctx [] [Event.probeFormat] err hk hprev' hfail'
  refine ⟨by rw [hred]; exact hloop.1, by rw [hred]; exact hloop.2, ?_⟩
  unfold iterError at hfail
  split_ifs at hfail with h1 h2 h3
  · exact ⟨eng.readCode k, h1,
      Or.inl (congrArg DecErr.message (Option.some.inj hfail)).symm⟩
  · exact ⟨eng.sendCode k, h2,
      Or.inr (congrArg DecErr.message (Option.some.inj hfail)).symm⟩
  · exact ⟨eng.recvCode k, h3,
      Or.inr (congrArg DecErr.message (Option.some.inj hfail)).symm⟩

/-- Witness for C3: with `av_read_frame` failing immediately with
FFmpeg's end-of-stream code, a request for one frame aborts with the
read-failure message and releases the demux handle. -/
theorem decodeFrames_abort_witness :
    (decodeFrames engReadFail (mkCtx 10) 0 3 1).1 =
      Except.error ⟨packetFailMsg (-541478725)⟩ ∧
    List.IsSuffix [Event.avioContextFree, Event.avformatCloseInput]
      (decodeFrames engReadFail (mkCtx 10) 0 3 1).2.1 ∧
    (∃ c : Int, c ≠ 0 ∧
      ((DecErr.mk (packetFailMsg (-541478725))).message = packetFailMsg c ∨
       (DecErr.mk (packetFailMsg (-541478725))).message =
         decodeFailMsg c)) :=
  decodeFrames_abort engReadFail (mkCtx 10) 3 1 ⟨2, 1, 10, 0⟩ 0
    ⟨packetFailMsg (-541478725)⟩ rfl (by decide)
    (fun j hj => absurd hj (Nat.not_lt_zero j)) (by decide)

/-- C8: a `decodeFrames` call on a type-0 context leaves every
persistent field of the context — the five pointers (`frame`, `packet`,
`buffer`, `codec_context`, `sws_context`), the scratch-buffer
allocation size, and `frame_rate` — unchanged; only the frame/packet
scratch contents and the scratch-buffer bytes mutate. -/
theorem decodeFrames_frame_effect (eng : Engine) (ctx : Context0)
    (off total : Int) :
    samePersistent (decodeFrames eng ctx 0 off total).2.2 ctx := by
  unfold decodeFrames
  rw [if_pos rfl]
  cases hp : eng.probe with
  | error c => exact ⟨rfl, rfl, rfl, rfl, rfl, rfl, rfl⟩
  | ok info => exact decodeLoop_pres eng info.width info.height _ _ _ _ _

/-- Counterexample to C4 as stated: when the format probe fails inside
`initContext`, the error is raised and the null handle returned but the
probe's I/O wrapper and format handle are NOT released — no release
call appears in the trace (unlike `decodeFrames`, which frees both on
its own probe failure). -/
theorem initContext_probe_leak_counterexample :
    (initContext engProbeFail 0).1 = Except.error ⟨demuxFailMsg (-2)⟩ ∧
    Event.avioContextFree ∉ (initContext engProbeFail 0).2 ∧
    Event.avformatCloseInput ∉ (initContext engProbeFail 0).2 :=
  ⟨rfl, by decide, by decide⟩

/-- C4 (amended): on probe failure `initContext` raises the demux error
with the probe's code and returns a null handle, releasing nothing (the
I/O wrapper and format handle leak); on decoder lookup/open failure the
I/O wrapper and the format handle are released (unconditionally, after
the probe succeeded) before the error carrying the codec step's code is
raised; on scaler-construction failure they have likewise been released
already, and the raised message carries the stale code 0 left over from
the succeeded codec step (the scaler step produces no code of its own);
a null handle is returned in every failure case. -/
theorem initContext_failure_paths (eng : Engine) :
    (∀ c : Int, eng.probe = Except.error c →
      initContext eng 0 = (Except.error ⟨demuxFailMsg c⟩,
        [Event.callocContext, Event.probeFormat])) ∧
    (∀ (info : ProbeInfo) (c : Int), eng.probe = Except.ok info →
      eng.codecOpen = Except.error c →
      initContext eng 0 = (Except.error ⟨ctxInitFailMsg c⟩,
        [Event.callocContext, Event.probeFormat, Event.retrieveCodecCtx,
         Event.avioContextFree, Event.avformatCloseInput])) ∧
    (∀ (info : ProbeInfo) (cc : Nat), eng.probe = Except.ok info →
      eng.codecOpen = Except.ok cc → eng.swsCtx = none →
      initContext eng 0 = (Except.error ⟨swsFailMsg 0⟩,
        [Event.callocContext, Event.probeFormat, Event.retrieveCodecCtx,
         Event.avioContextFree, Event.avformatCloseInput,
         Event.swsGetContext])) := by
  refine ⟨?_, ?_, ?_⟩
  · intro c hp
    unfold initContext
    rw [if_pos rfl, hp]
  · intro info c hp hc
    unfold initContext
    rw [if_pos rfl, hp, hc]
  · intro info cc hp hc hs
    unfold initContext
    rw [if_pos rfl, hp, hc, hs]

/-- Witness for C4 (amended): the codec-failure path on `engCodecFail`
releases the I/O wrapper and format handle and carries code −3. -/
theorem initContext_failure_paths_witness :
    engCodecFail.probe = Except.ok ⟨2, 1, 10, 0⟩ ∧
    engCodecFail.codecOpen = Except.error (-3) ∧
    initContext engCodecFail 0 = (Except.error ⟨ctxInitFailMsg (-3)⟩,
      [Event.callocContext, Event.probeFormat, Event.retrieveCodecCtx,
       Event.avioContextFree, Event.avformatCloseInput]) :=
  ⟨rfl, rfl,
   (initContext_failure_paths engCodecFail).2.1 ⟨2, 1, 10, 0⟩ (-3)
     rfl rfl⟩

/-- Every string of the claimed step-failure shape contains a colon. -/
theorem colon_mem_step_suffix (s : String) (c : Int) :
    ':' ∈ (s ++ (" failed, error code: " ++ toString c)).data := by
  rw [String.data_append, String.data_append]
  exact List.mem_append_right _ (List.mem_append_left _ (by decide))

/-- Every unsupported-context message contains the letter `x` (from the
word "Context"). -/
theorem x_mem_unsupported (t : Int) : 'x' ∈ (unsupportedMsg t).data := by
  unfold unsupportedMsg
  rw [String.data_append, String.data_append]
  exact List.mem_append_left _ (List.mem_append_left _ (by decide))

/-- Counterexample to C7 as stated: the decode-submission failure
message reachable from `decodeFrames` is
`"Decoding failed, error code -22"` — it lacks the colon of the claimed
`"<Step> failed, error code: <n>"` shape and is not one of the fixed
messages, so it matches neither claimed form. -/
theorem decode_message_form_counterexample :
    (decodeFrames engSendFail (mkCtx 10) 0 0 1).1 =
      Except.error ⟨decodeFailMsg (-22)⟩ ∧
    ¬ claimedForm (decodeFailMsg (-22)) := by
  constructor
  · rfl
  · rintro (⟨step, c, he⟩ | hf | ⟨t, he⟩)
    · have hmem : ':' ∈ (decodeFailMsg (-22)).data := by
        rw [he]; exact colon_mem_step_suffix step c
      exact absurd hmem (by decide)
    · exact absurd hf (by decide)
    · have hmem : 'x' ∈ (decodeFailMsg (-22)).data := by
        rw [he]; exact x_mem_unsupported t
      exact absurd hmem (by decide)

/-- C7 (amended): every error any exposed operation raises has a
message that is the step-failure form `"<Step> failed, error code: <n>"`
(steps "Demuxing", "AVPacket initialization", "Context initialization",
"SWS context initialization"), or one of the fixed messages
`"Unknown frame rate"` / `"Context <n> is not supported"`, or the
colon-less decode-failure form `"Decoding failed, error code <n>"` used
by the packet-submission and frame-retrieval failure sites. -/
theorem error_message_forms (eng : Engine) (ctx : Context0)
    (t off total : Int) (err : DecErr)
    (h : (decodeFrames eng ctx t off total).1 = Except.error err ∨
         (frames ctx t).1 = Except.error err ∨
         (initContext eng t).1 = Except.error err) :
    amendedForm err.message := by
  rcases h with h | h | h
  · unfold decodeFrames at h
    split_ifs at h with ht
    · cases hp : eng.probe with
      | error c =>
          rw [hp] at h
          obtain rfl : (⟨demuxFailMsg c⟩ : DecErr) = err :=
            Except.error.inj h
          exact Or.inl (Or.inl ⟨"Demuxing", c, by
            rw [demuxFailMsg, ← String.append_assoc]; rfl⟩)
      | ok info =>
          rw [hp] at h
          exact decodeLoop_error_form eng info.width info.height _ _ _ _ _
            err h
    · obtain rfl : (⟨unsupportedMsg t⟩ : DecErr) = err :=
        Except.error.inj h
      exact Or.inl (Or.inr (Or.inr ⟨t, rfl⟩))
  · unfold frames at h
    split_ifs at h with ht hpos
    · obtain rfl : (⟨unknownFrameRateMsg⟩ : DecErr) = err :=
        Except.error.inj h
      exact Or.inl (Or.inr (Or.inl rfl))
    · obtain rfl : (⟨unsupportedMsg t⟩ : DecErr) = err :=
        Except.error.inj h
      exact Or.inl (Or.inr (Or.inr ⟨t, rfl⟩))
  · unfold initContext at h
    split_ifs at h with ht
    · cases hp : eng.probe with
      | error c =>
          rw [hp] at h
          obtain rfl : (⟨demuxFailMsg c⟩ : DecErr) = err :=
            Except.error.inj h
          exact Or.inl (Or.inl ⟨"Demuxing", c, by
            rw [demuxFailMsg, ← String.append_assoc]; rfl⟩)
      | ok info =>
          rw [hp] at h
          cases hc : eng.codecOpen with
          | error c =>
              rw [hc] at h
              obtain rfl : (⟨ctxInitFailMsg c⟩ : DecErr) = err :=
                Except.error.inj h
              exact Or.inl (Or.inl ⟨"Context initialization", c, by
                rw [ctxInitFailMsg, ← String.append_assoc]; rfl⟩)
          | ok cc =>
              rw [hc] at h
              cases hs : eng.swsCtx with
              | none =>
                  rw [hs] at h
                  obtain rfl : (⟨swsFailMsg 0⟩ : DecErr) = err :=
                    Except.error.inj h
                  exact Or.inl (Or.inl ⟨"SWS context initialization", 0, by
                    rw [swsFailMsg, ← String.append_assoc]; rfl⟩)
              | some sc =>
                  rw [hs] at h
                  exact absurd h (by simp)
    · obtain rfl : (⟨unsupportedMsg t⟩ : DecErr) = err :=
        Except.error.inj h
      exact Or.inl (Or.inr (Or.inr ⟨t, rfl⟩))

/-- Witness for C7 (amended): the unknown-frame-rate error raised by
`frames` on a zero hint matches the amended taxonomy. -/
theorem error_message_forms_witness :
    ((decodeFrames engAllOk (mkCtx 0) 0 0 0).1 =
        Except.error ⟨unknownFrameRateMsg⟩ ∨
     (frames (mkCtx 0) 0).1 = Except.error ⟨unknownFrameRateMsg⟩ ∨
     (initContext engAllOk 0).1 = Except.error ⟨unknownFrameRateMsg⟩) ∧
    amendedForm (DecErr.mk unknownFrameRateMsg).message :=
  ⟨Or.inr (Or.inl rfl),
   error_message_forms engAllOk (mkCtx 0) 0 0 0 ⟨unknownFrameRateMsg⟩
     (Or.inr (Or.inl rfl))⟩

end Rubus
